import Mathlib

/-!
Verification of the `evaluation_pipeline` package of the EvoAgentX repository.

This file gives a shallow embedding, in Lean 4, of the pure core of the
checkpointed three-layer evaluation pipeline:

* `evaluation_pipeline/utils.py` : `merge_results`, `create_batch_iterator`,
  `retry_with_backoff`, `capture_exception_details`, `_is_expected_exception`,
  `save_checkpoint`;
* `evaluation_pipeline/layer_1_structure_eval.py` :
  `StructureEvaluator.evaluate_workflow_structure`, `evaluate_structure_batch`,
  and the driver `run_layer_1_evaluation`;
* `evaluation_pipeline/layer_2_execution_eval.py` : the corresponding batch
  worker and driver;
* `evaluation_pipeline/layer_3_output_eval.py` : the batch worker, the driver,
  `OutputQualityEvaluator._aggregate_evaluations` and `_get_quality_assessment`.

Modelling conventions.

* Python dictionaries that play the role of records are embedded as Lean
  structures.  A field accessed via `d.get(key, default)` or guarded by
  `key in d` is embedded as an `Option`: `none` means the key is absent.
  The extra Boolean field `extra` of `PyResults` records whether the
  dictionary carries any further keys (such as `layer`, `timestamp`,
  `message`); it matters only for Python truthiness (`if checkpoint:`),
  which is `true` iff the dictionary is non-empty.
* Python floats are embedded as `ℚ`; counters as `ℤ`; exceptions as explicit
  values carrying the class name, the names of the superclasses (for
  `isinstance` checks) and the message.  A fallible call is a value of
  `Except Exc _`.
* Side effects are made explicit: wall-clock readings and timestamps are
  parameters, the file system is an explicit state (`FS`), and the
  nondeterministic completion order of the process pool is a parameter
  (the list of completed futures in completion order).
* The drivers are embedded up to the point where batches are handed to the
  process pool (`DriverOutcome`): `earlyReturn r` is the `return` executed
  before any batch is dispatched or any checkpoint written, and
  `dispatch cp batches` records the checkpoint in force and the batches that
  are submitted.  The collection loop that follows the dispatch is embedded
  separately (`collect_batch_results`).
-/

set_option autoImplicit false

namespace EvalPipeline

universe u v

/-! ### Summary dictionaries and partial result dictionaries

A *summary* is the Python dict built by the batch workers and by
`merge_results`; each of its four keys may be absent (the drivers build
synthetic summaries without `execution_time`, and a fresh checkpoint has the
empty summary `{}`). -/

structure SummaryD where
  total_tests : Option ℤ
  successful : Option ℤ
  failed : Option ℤ
  execution_time : Option ℚ
  deriving Repr, DecidableEq

/-- The empty Python dict `{}` used as the summary of a fresh checkpoint. -/
def SummaryD.empty : SummaryD := ⟨none, none, none, none⟩

/-- A partial-results dictionary, the common shape of batch-worker outputs,
checkpoints and merged results: optional `test_results`, `errors` and
`summary` keys (absent key = `none`), plus `extra`, which is `true` iff the
dictionary carries any further keys. -/
structure PyResults (α : Type u) (β : Type v) where
  test_results : Option (List α)
  errors : Option (List β)
  summary : Option SummaryD
  extra : Bool
  deriving Repr, DecidableEq

variable {α : Type u} {β : Type v}

/-- Python truthiness of the dictionary: non-empty iff it has some key. -/
def PyResults.truthy (r : PyResults α β) : Bool :=
  r.test_results.isSome || r.errors.isSome || r.summary.isSome || r.extra

/-- The fresh checkpoint `{'test_results': [], 'errors': [], 'summary': {}}`
installed by every driver when no (truthy) checkpoint is found. -/
def freshCheckpoint : PyResults α β :=
  ⟨some [], some [], some SummaryD.empty, false⟩

/-- The summary dict of a partial result, as read by `merge_results`
(`results['summary']` is only read under `if 'summary' in results`, and its
fields via `.get(_, 0)`). -/
def PyResults.summaryD (r : PyResults α β) : SummaryD :=
  r.summary.getD SummaryD.empty

/-! ### `merge_results` (`utils.py`, lines 262-295) -/

/-- One iteration of the `for results in results_list` loop of
`merge_results`: extend `test_results` / `errors` when the key is present,
and add the summary counters when the `summary` key is present. -/
def mergeOne (m r : PyResults α β) : PyResults α β :=
  let m := match r.test_results with
    | some l => { m with test_results := some (m.test_results.getD [] ++ l) }
    | none => m
  let m := match r.errors with
    | some l => { m with errors := some (m.errors.getD [] ++ l) }
    | none => m
  match r.summary with
  | some s =>
      let s' : SummaryD :=
        ⟨some (m.summaryD.total_tests.getD 0 + s.total_tests.getD 0),
         some (m.summaryD.successful.getD 0 + s.successful.getD 0),
         some (m.summaryD.failed.getD 0 + s.failed.getD 0),
         some (m.summaryD.execution_time.getD 0 + s.execution_time.getD 0)⟩
      { m with summary := some s' }
  | none => m

/-- `merge_results(results_list)`: start from
`{'test_results': [], 'summary': {'total_tests': 0, 'successful': 0,
'failed': 0, 'execution_time': 0.0}, 'errors': []}` and fold the loop body
over the input list. -/
def merge_results (results_list : List (PyResults α β)) : PyResults α β :=
  results_list.foldl mergeOne
    ⟨some [], some [], some ⟨some 0, some 0, some 0, some 0⟩, false⟩

/-! ### `create_batch_iterator` (`utils.py`, lines 248-259)

`[items[i:i + batch_size] for i in range(0, len(items), batch_size)]`:
for `batch_size > 0`, `range(0, n, B)` is `[0, B, 2*B, ...]`, one start per
`i < ⌈n / B⌉`, and the slice `items[s : s + B]` is `(items.drop s).take B`
(Python slices clamp at the end of the list, as `drop`/`take` do). -/

def create_batch_iterator (items : List α) (batch_size : ℕ) : List (List α) :=
  (List.range ((items.length + batch_size - 1) / batch_size)).map
    (fun i => (items.drop (i * batch_size)).take batch_size)

/-! ### Exceptions and `capture_exception_details` (`utils.py`, lines 101-139)

A Python exception value is embedded as its class name, the list of names of
its proper superclasses (what `isinstance` consults), and its message. -/

structure Exc where
  ty : String
  bases : List String
  msg : String
  deriving Repr, DecidableEq

/-- The tuple of expected exception classes in `_is_expected_exception`. -/
def expected_types : List String :=
  ["ValueError", "KeyError", "AttributeError", "TypeError"]

/-- `_is_expected_exception(exception)`: `isinstance(exception, expected_types)`,
i.e. the class of the exception or one of its superclasses is expected. -/
def _is_expected_exception (e : Exc) : Bool :=
  (e.ty :: e.bases).any (fun c => expected_types.contains c)

/-- The structured error dictionary built by `capture_exception_details`.
The `module`, `traceback` and `timestamp` entries of the Python dict are
process-environment strings with no bearing on any claim and are omitted.
`test_id` models the key added by the batch workers
(`error_info['test_id'] = ...`); `capture_exception_details` itself leaves it
absent. -/
structure ErrorDetails where
  ty : String
  message : String
  is_expected : Bool
  test_id : Option String
  deriving Repr, DecidableEq

/-- `capture_exception_details(exception)`:
`{'type': type(exception).__name__, 'message': str(exception),
'is_expected': _is_expected_exception(exception), ...}`. -/
def capture_exception_details (e : Exc) : ErrorDetails :=
  ⟨e.ty, e.msg, _is_expected_exception e, none⟩

/-! ### `retry_with_backoff` (`utils.py`, lines 35-65)

The wrapped callable is embedded as `f : ℕ → Except Exc ρ`, giving the
outcome of its `n`-th invocation.  The trace records the final outcome
(`raise last_exception` becomes `Except.error`), the number of invocations
of `f`, and the list of `time.sleep` durations in order. -/

structure RetryTrace (ρ : Type u) where
  result : Except Exc ρ
  calls : ℕ
  sleeps : List ℚ
  deriving Repr

/-- The `for attempt in range(max_retries + 1)` loop of the wrapper, from
attempt number `attempt` on, with `fuel = max_retries - attempt` further
attempts allowed after this one and `cur` the `current_delay` in force. -/
def retryFrom {ρ : Type u} (f : ℕ → Except Exc ρ) (backoff_factor : ℚ) :
    (attempt fuel : ℕ) → (cur : ℚ) → (calls : ℕ) → (sleeps : List ℚ) →
    RetryTrace ρ
  | attempt, fuel, cur, calls, sleeps =>
    match f attempt with
    | .ok v => ⟨.ok v, calls + 1, sleeps⟩
    | .error e =>
      match fuel with
      | 0 => ⟨.error e, calls + 1, sleeps⟩
      | fuel' + 1 =>
          retryFrom f backoff_factor (attempt + 1) fuel' (cur * backoff_factor)
            (calls + 1) (sleeps ++ [cur])

/-- `retry_with_backoff(max_retries, delay, backoff_factor)` applied to `f`:
run the attempt loop from attempt `0` with `current_delay = delay`. -/
def retry_with_backoff {ρ : Type u} (f : ℕ → Except Exc ρ) (max_retries : ℕ)
    (delay backoff_factor : ℚ) : RetryTrace ρ :=
  retryFrom f backoff_factor 0 max_retries delay 0 []

/-! ### Layer result records and the driver front ends

Only the fields the drivers read are embedded.  A record held in a layer's
checkpoint is modelled as carrying its `test_id` (the drivers read it with
`result['test_id']`, which would raise on a record without one; no claim
concerns that path). -/

/-- A layer-1 test item, as read by `run_layer_1_evaluation`
(`test.get('workflow_id')`, absent key = `none`). -/
structure TestItem where
  workflow_id : Option String
  deriving Repr, DecidableEq

/-- A layer-1 result record, as read by `run_layer_2_evaluation`:
`result.get('success', False)` (embedded as the truthiness of the value,
`false` when absent) and `'workflow_json' in result` (key presence). -/
structure L1Rec where
  test_id : String
  success : Bool
  has_workflow_json : Bool
  deriving Repr, DecidableEq

/-- A layer-2 result record, as read by `run_layer_3_evaluation`:
`result.get('overall_success', False)`, embedded as a truthiness Boolean. -/
structure L2Rec where
  test_id : String
  overall_success : Bool
  deriving Repr, DecidableEq

/-- A layer-3 result record (only its id is read by the driver). -/
structure L3Rec where
  test_id : String
  deriving Repr, DecidableEq

/-- Where a driver stands once its deterministic front end has run:
`earlyReturn r` is a `return r` executed before any batch is dispatched and
before any checkpoint is written; `dispatch cp batches` means the driver is
about to submit exactly `batches` to the process pool, with `cp` the
checkpoint dict in force. -/
inductive DriverOutcome (ρ : Type u) (ι : Type v) where
  | earlyReturn (result : ρ)
  | dispatch (checkpoint : ρ) (batches : List (List ι))
  deriving Repr, DecidableEq

/-- The batches submitted to the pool (none on an early return). -/
def DriverOutcome.batches {ρ : Type u} {ι : Type v} :
    DriverOutcome ρ ι → List (List ι)
  | .earlyReturn _ => []
  | .dispatch _ bs => bs

/-- The checkpoint-resumption and batching steps shared by the three drivers
(e.g. `layer_1_structure_eval.py`, lines 223-238): load a checkpoint
(`loaded` is what `load_checkpoint` returned); if it is truthy, build
`completed_ids` from its `test_results` and drop every item whose id is in
it; otherwise install the fresh checkpoint.  If the working list is empty,
return the checkpoint; otherwise split the working list into batches. -/
def resumeWorking {ρ : Type u} {ι : Type v} {β : Type*} (items : List ι)
    (getItemId : ι → Option String) (loaded : Option (PyResults ρ β))
    (getRecId : ρ → String) : PyResults ρ β × List ι :=
  match loaded with
  | some cp =>
    if cp.truthy then
      let completed_ids := (cp.test_results.getD []).map getRecId
      (cp, items.filter (fun t =>
        match getItemId t with
        | none => true
        | some s => !(completed_ids.contains s)))
    else (freshCheckpoint, items)
  | none => (freshCheckpoint, items)

def resumeAndBatch {ρ : Type u} {ι : Type v} {β : Type*} (items : List ι)
    (getItemId : ι → Option String) (loaded : Option (PyResults ρ β))
    (getRecId : ρ → String) (batch_size : ℕ) :
    DriverOutcome (PyResults ρ β) ι :=
  let st := resumeWorking items getItemId loaded getRecId
  if st.2.isEmpty then .earlyReturn st.1
  else .dispatch st.1 (create_batch_iterator st.2 batch_size)

/-- `run_layer_1_evaluation(test_data, config)` up to the dispatch of batches
(`layer_1_structure_eval.py`, lines 221-252). -/
def run_layer_1_evaluation (test_data : List TestItem)
    (loaded : Option (PyResults L1Rec ErrorDetails)) (batch_size : ℕ) :
    DriverOutcome (PyResults L1Rec ErrorDetails) TestItem :=
  resumeAndBatch test_data TestItem.workflow_id loaded L1Rec.test_id batch_size

/-- The early-return dictionary `{'layer': n, 'test_results': [],
'errors': [], 'summary': {'total_tests': 0, 'successful': 0, 'failed': 0},
'message': ...}` of the layer-2 and layer-3 drivers (the extra `layer` and
`message` keys make `extra` true; the summary has no `execution_time`). -/
def noInputResult {ρ : Type u} {β : Type*} : PyResults ρ β :=
  ⟨some [], some [], some ⟨some 0, some 0, some 0, none⟩, true⟩

/-- `run_layer_2_evaluation(layer_1_results, config)` up to the dispatch of
batches (`layer_2_execution_eval.py`, lines 352-404): keep the layer-1
records with truthy `success` and a `workflow_json` key; if none, return the
no-input dictionary; otherwise resume from the layer-2 checkpoint and batch. -/
def run_layer_2_evaluation {β : Type*} (layer_1_results : PyResults L1Rec β)
    (loaded : Option (PyResults L2Rec ErrorDetails)) (batch_size : ℕ) :
    DriverOutcome (PyResults L2Rec ErrorDetails) L1Rec :=
  let successful_workflows := (layer_1_results.test_results.getD []).filter
    (fun r => r.success && r.has_workflow_json)
  if successful_workflows.isEmpty then .earlyReturn noInputResult
  else
    resumeAndBatch successful_workflows (fun r => some r.test_id) loaded
      L2Rec.test_id batch_size

/-- `run_layer_3_evaluation(layer_2_results, config)` up to the dispatch of
batches (`layer_3_output_eval.py`, lines 406-458): keep the layer-2 records
with truthy `overall_success`; if none, return the no-input dictionary;
otherwise resume from the layer-3 checkpoint and batch. -/
def run_layer_3_evaluation {β : Type*} (layer_2_results : PyResults L2Rec β)
    (loaded : Option (PyResults L3Rec ErrorDetails)) (batch_size : ℕ) :
    DriverOutcome (PyResults L3Rec ErrorDetails) L2Rec :=
  let successful_executions := (layer_2_results.test_results.getD []).filter
    (fun r => r.overall_success)
  if successful_executions.isEmpty then .earlyReturn noInputResult
  else
    resumeAndBatch successful_executions (fun r => some r.test_id) loaded
      L3Rec.test_id batch_size

/-! ### The result-collection loop of the drivers

`for future in as_completed(future_to_batch): ...`
(`layer_1_structure_eval.py`, lines 255-274; the same loop appears in
`layer_2_execution_eval.py`, lines 407-426 and `layer_3_output_eval.py`,
lines 461-480).  The completion order of the pool is nondeterministic, so it
is a parameter: `completions` lists, in completion order, the batch index of
each future together with what `future.result()` did (returned a batch
result or raised).  The loop appends, per future, either the batch result or
the synthetic dictionary `{'test_results': [], 'errors': [error_info],
'summary': {'total_tests': len(batches[batch_idx]), 'successful': 0,
'failed': 1}}`.  The periodic intermediate checkpoint writes performed
inside the same loop leave `all_results` untouched and are not modelled. -/

/-- The synthetic all-results entry appended when a batch future raises. -/
def syntheticFailedBatch {ρ : Type u} (batch_len : ℕ) (e : Exc) :
    PyResults ρ ErrorDetails :=
  ⟨some [], some [capture_exception_details e],
   some ⟨some (batch_len : ℤ), some 0, some 1, none⟩, false⟩

/-- The collection loop: fold over the completed futures, appending one
entry per future to `all_results` (initially empty). -/
def collect_batch_results {ρ : Type u} {ι : Type v} (batches : List (List ι))
    (completions : List (ℕ × Except Exc (PyResults ρ ErrorDetails))) :
    List (PyResults ρ ErrorDetails) :=
  completions.foldl
    (fun all_results c =>
      match c.2 with
      | .ok batch_result => all_results ++ [batch_result]
      | .error e =>
          all_results ++ [syntheticFailedBatch (batches.getD c.1 []).length e])
    []

/-! ### The batch workers

`evaluate_structure_batch` (`layer_1_structure_eval.py`, lines 167-207),
`execute_workflows_batch` (`layer_2_execution_eval.py`, lines 295-335) and
`evaluate_outputs_batch` (`layer_3_output_eval.py`, lines 349-389) all have
the same shape, differing only in the per-item evaluator call and in the key
used for the error record's `test_id` (`workflow_id` for layer 1, `test_id`
for layers 2 and 3); they are embedded once, parameterised by the outcome of
the per-item call (`evalOutcome`, `Except.error` = the call raised) and by
the item's id (`getId`, `none` = key absent, read with
`.get(key, 'unknown')`).  `execution_time` is the wall-clock difference,
passed in as `elapsed`. -/

def run_batch_worker {ι : Type v} {ρ : Type u} (test_batch : List ι)
    (evalOutcome : ι → Except Exc ρ) (getId : ι → Option String)
    (elapsed : ℚ) : PyResults ρ ErrorDetails :=
  let results := test_batch.filterMap (fun t => (evalOutcome t).toOption)
  let errors := test_batch.filterMap (fun t =>
    match evalOutcome t with
    | .ok _ => none
    | .error e =>
        some { capture_exception_details e with
                 test_id := some ((getId t).getD "unknown") })
  ⟨some results, some errors,
   some ⟨some (test_batch.length : ℤ), some (results.length : ℤ),
         some (errors.length : ℤ), some elapsed⟩, false⟩

/-! ### `save_checkpoint` (`utils.py`, lines 191-210)

The file system is explicit: the set of existing directories and an
association list from path to content where the head entry for a path is the
file's current content (a write prepends, shadowing any older entry).  The
timestamp `datetime.now().strftime("%Y%m%d_%H%M%S")` is the parameter `now`.
`open(filepath, 'w')` raises `FileNotFoundError` when the directory does not
exist, and truncates (overwrites) an existing file; `save_checkpoint`
contains no directory creation. -/

structure FS where
  dirs : List String
  files : List (String × String)
  deriving Repr, DecidableEq

/-- The content a path currently holds, if any. -/
def FS.read (fs : FS) (path : String) : Option String :=
  (fs.files.find? (fun p => p.1 = path)).map Prod.snd

/-- `save_checkpoint(checkpoint_dir, layer, data)` at time `now`, with
`data` already serialised to the JSON text `data`. -/
def save_checkpoint (fs : FS) (checkpoint_dir : String) (layer : ℕ)
    (now : String) (data : String) : Except Exc (FS × String) :=
  let filename := "layer_" ++ toString layer ++ "_checkpoint_" ++ now ++ ".json"
  let filepath := checkpoint_dir ++ "/" ++ filename
  if checkpoint_dir ∈ fs.dirs then
    .ok (⟨fs.dirs, (filepath, data) :: fs.files⟩, filepath)
  else
    .error ⟨"FileNotFoundError", ["OSError", "Exception", "BaseException"],
            filepath⟩

/-! ### `StructureEvaluator.evaluate_workflow_structure`
(`layer_1_structure_eval.py`, lines 31-99)

The workflow-generator collaborator is external; its behaviour on the `n`-th
invocation is the parameter `gen`.  The body wraps the generator call in an
inner `try/except` that re-raises any generator exception as
`WorkFlowGenerationFailed`, and wraps everything in an outer `try/except`
that converts any exception into a failure record, so the decorated function
never raises.  The placeholder LLM scoring and the workflow serialisation
are external calls whose results do not affect any claim; the success record
is embedded as carrying the generated workflow. -/

/-- What one invocation of `generator.generate_workflow` did. -/
inductive GenOutcome (ω : Type u) where
  | ok (workflow : ω)
  | raises (e : Exc)
  deriving Repr, DecidableEq

/-- Modelled from the spec: the class `WorkFlowGenerationFailed` of
`evaluation_pipeline/exceptions.py` is imported by
`layer_1_structure_eval.py` but the module itself is not among the sources.
Spec §4.5 has generator failures "produce a 'generation failed' structured
error", and the spec's scenario (§8) requires that error to be classified
`is_expected=True`, which under `_is_expected_exception` forces the class to
derive from one of the expected types; it is therefore modelled as a
subclass of `ValueError`. -/
def WorkFlowGenerationFailed (msg : String) : Exc :=
  ⟨"WorkFlowGenerationFailed", ["ValueError", "Exception", "BaseException"],
   msg⟩

/-- The result record of `evaluate_workflow_structure` (the fields the
claims and the layer-2 driver read; `workflow_name`, the scores and the
timing fields are omitted). -/
structure L1Out (ω : Type u) where
  test_id : Option String
  success : Bool
  workflow_json : Option ω
  error : Option ErrorDetails
  deriving Repr, DecidableEq

/-- `str(x)` for the optional id interpolated into the
`WorkFlowGenerationFailed` message (`str(None) = "None"`). -/
def pyStr (s : Option String) : String := s.getD "None"

/-- The body of `evaluate_workflow_structure` for one invocation whose
generator call behaved as `g`. -/
def evaluate_workflow_structure_body {ω : Type u} (item : TestItem)
    (g : GenOutcome ω) : L1Out ω :=
  match g with
  | .ok workflow =>
      ⟨item.workflow_id, true, some workflow, none⟩
  | .raises e =>
      let wrapped := WorkFlowGenerationFailed
        ("Failed to generate workflow for " ++ pyStr item.workflow_id ++
         ": " ++ e.msg)
      ⟨item.workflow_id, false, none, some (capture_exception_details wrapped)⟩

/-- `evaluate_workflow_structure` as actually called: the body, which never
raises, wrapped in `@retry_with_backoff(max_retries=3, delay=2.0)` (the
default `backoff_factor` is `2.0`). -/
def evaluate_workflow_structure {ω : Type u} (item : TestItem)
    (gen : ℕ → GenOutcome ω) : RetryTrace (L1Out ω) :=
  retry_with_backoff
    (fun n => Except.ok (evaluate_workflow_structure_body item (gen n))) 3 2 2

/-! ### `OutputQualityEvaluator._aggregate_evaluations` and
`_get_quality_assessment` (`layer_3_output_eval.py`, lines 274-346)

Scores are Python floats, embedded as `ℚ`. -/

/-- An entry `quality_scores[criterion]` : `{'score': ..., 'explanation': ...}`. -/
structure CriterionScore where
  score : ℚ
  explanation : String
  deriving Repr, DecidableEq

/-- The `quality_scores` dict of one individual evaluation; each of the four
criterion keys may be absent (`if criterion in quality_scores`). -/
structure QualityScores where
  task_completion : Option CriterionScore
  content_consistency : Option CriterionScore
  diversity : Option CriterionScore
  usefulness : Option CriterionScore
  deriving Repr, DecidableEq

/-- The all-absent dict, the default of `evaluation.get('quality_scores', {})`. -/
def QualityScores.empty : QualityScores := ⟨none, none, none, none⟩

/-- One individual output evaluation, as read by `_aggregate_evaluations`:
`eval_result.get('evaluation_success', False)` and
`evaluation.get('quality_scores', {})`. -/
structure IndivEval where
  evaluation_success : Bool
  quality_scores : QualityScores
  deriving Repr, DecidableEq

/-- One `aggregated_scores[criterion]` entry. -/
structure AggEntry where
  average_score : ℚ
  min_score : ℚ
  max_score : ℚ
  score_variance : ℚ
  sample_explanations : List String
  deriving Repr, DecidableEq

/-- The dictionary returned by `_aggregate_evaluations`.  On the no-successful-
evaluations path the Python dict is `{'aggregation_success': False,
'reason': ...}`; its absent keys are embedded as the neutral values below and
`quality_assessment` as `none`. -/
structure AggResult where
  aggregation_success : Bool
  total_evaluations : ℕ
  successful_evaluations : ℕ
  task_completion : Option AggEntry
  content_consistency : Option AggEntry
  diversity : Option AggEntry
  usefulness : Option AggEntry
  overall_average_score : ℚ
  quality_assessment : Option String
  deriving Repr, DecidableEq

/-- The evaluations with truthy `evaluation_success`, i.e.
`successful_evaluations` in `_aggregate_evaluations`. -/
def successfulEvals (evaluations : List IndivEval) : List IndivEval :=
  evaluations.filter (fun e => e.evaluation_success)

/-- The `scores` list collected for one criterion: the `['score']` of the
criterion entry of each successful evaluation that has that criterion. -/
def criterionScores (evaluations : List IndivEval)
    (pick : QualityScores → Option CriterionScore) : List ℚ :=
  (successfulEvals evaluations).filterMap
    (fun e => (pick e.quality_scores).map CriterionScore.score)

/-- The `explanations` list collected alongside `criterionScores`. -/
def criterionExpls (evaluations : List IndivEval)
    (pick : QualityScores → Option CriterionScore) : List String :=
  (successfulEvals evaluations).filterMap
    (fun e => (pick e.quality_scores).map CriterionScore.explanation)

/-- Python `min(scores)` on a non-empty list, as a fold. -/
def pyListMin (x : ℚ) (xs : List ℚ) : ℚ := xs.foldl min x

/-- Python `max(scores)` on a non-empty list, as a fold. -/
def pyListMax (x : ℚ) (xs : List ℚ) : ℚ := xs.foldl max x

/-- The `aggregated_scores[criterion]` entry for one criterion: present iff
some score was collected (`if scores:`), with
`sum(scores)/len(scores)`, `min(scores)`, `max(scores)`,
`max(scores) - min(scores) if len(scores) > 1 else 0`, and the first two
explanations. -/
def aggEntryFor (evaluations : List IndivEval)
    (pick : QualityScores → Option CriterionScore) : Option AggEntry :=
  match criterionScores evaluations pick with
  | [] => none
  | x :: xs =>
      some
        ⟨(x :: xs).sum / ((x :: xs).length : ℚ),
         pyListMin x xs,
         pyListMax x xs,
         if (x :: xs).length > 1 then pyListMax x xs - pyListMin x xs else 0,
         (criterionExpls evaluations pick).take 2⟩

/-- `_get_quality_assessment(overall_score)`. -/
def _get_quality_assessment (overall_score : ℚ) : String :=
  if overall_score ≥ 8 then "Excellent"
  else if overall_score ≥ 7 then "Good"
  else if overall_score ≥ 6 then "Satisfactory"
  else if overall_score ≥ 5 then "Below Average"
  else "Poor"

/-- `_aggregate_evaluations(evaluations)`. -/
def _aggregate_evaluations (evaluations : List IndivEval) : AggResult :=
  let succ := successfulEvals evaluations
  if succ.isEmpty then
    ⟨false, 0, 0, none, none, none, none, 0, none⟩
  else
    let tc := aggEntryFor evaluations (fun q => q.task_completion)
    let cc := aggEntryFor evaluations (fun q => q.content_consistency)
    let dv := aggEntryFor evaluations (fun q => q.diversity)
    let uf := aggEntryFor evaluations (fun q => q.usefulness)
    let entries := [tc, cc, dv, uf].filterMap id
    let overall_average :=
      if entries.isEmpty then 0
      else (entries.map AggEntry.average_score).sum / (entries.length : ℚ)
    ⟨true, evaluations.length, succ.length, tc, cc, dv, uf, overall_average,
     some (_get_quality_assessment overall_average)⟩

/-! ## Helper lemmas -/

lemma mergeOne_some (tr : List α) (er : List β) (a b c : ℤ) (d : ℚ)
    (ex : Bool) (r : PyResults α β) :
    mergeOne ⟨some tr, some er, some ⟨some a, some b, some c, some d⟩, ex⟩ r =
      ⟨some (tr ++ r.test_results.getD []), some (er ++ r.errors.getD []),
       some ⟨some (a + r.summaryD.total_tests.getD 0),
             some (b + r.summaryD.successful.getD 0),
             some (c + r.summaryD.failed.getD 0),
             some (d + r.summaryD.execution_time.getD 0)⟩, ex⟩ := by
  obtain ⟨otr, oer, osum, oex⟩ := r
  cases otr <;> cases oer <;> cases osum <;>
    simp [mergeOne, PyResults.summaryD, SummaryD.empty]

lemma foldl_mergeOne (rs : List (PyResults α β)) :
    ∀ (tr : List α) (er : List β) (a b c : ℤ) (d : ℚ) (ex : Bool),
      rs.foldl mergeOne
          ⟨some tr, some er, some ⟨some a, some b, some c, some d⟩, ex⟩ =
        ⟨some (tr ++ (rs.map (fun r => r.test_results.getD [])).flatten),
         some (er ++ (rs.map (fun r => r.errors.getD [])).flatten),
         some ⟨some (a + (rs.map (fun r => r.summaryD.total_tests.getD 0)).sum),
               some (b + (rs.map (fun r => r.summaryD.successful.getD 0)).sum),
               some (c + (rs.map (fun r => r.summaryD.failed.getD 0)).sum),
               some (d + (rs.map (fun r => r.summaryD.execution_time.getD 0)).sum)⟩,
         ex⟩ := by
  induction rs with
  | nil => intro tr er a b c d ex; simp
  | cons r rs ih =>
      intro tr er a b c d ex
      rw [List.foldl_cons, mergeOne_some, ih]
      simp [add_assoc]

lemma create_batch_iterator_nil (B : ℕ) :
    create_batch_iterator ([] : List α) B = [] := by
  rcases Nat.eq_zero_or_pos B with hB | hB
  · subst hB; simp [create_batch_iterator]
  · simp [create_batch_iterator,
      Nat.div_eq_of_lt (Nat.sub_lt hB Nat.one_pos)]

lemma create_batch_iterator_cons {B : ℕ} (hB : 0 < B) (items : List α)
    (h : items ≠ []) :
    create_batch_iterator items B =
      items.take B :: create_batch_iterator (items.drop B) B := by
  have hL : 0 < items.length := List.length_pos.mpr h
  have hcount : (items.length + B - 1) / B =
      ((items.drop B).length + B - 1) / B + 1 := by
    rw [List.length_drop]
    rcases le_or_lt items.length B with hLB | hLB
    · have h1 : items.length - B = 0 := by omega
      have h2 : items.length + B - 1 = (items.length - 1) + B := by omega
      rw [h1, h2, Nat.add_div_right _ hB, Nat.div_eq_of_lt (by omega),
        Nat.div_eq_of_lt (by omega)]
    · have h2 : items.length + B - 1 = ((items.length - B) + B - 1) + B := by
        omega
      rw [h2, Nat.add_div_right _ hB]
  unfold create_batch_iterator
  rw [hcount, List.range_succ_eq_map]
  simp only [List.map_cons, List.map_map, Nat.zero_mul, List.drop_zero,
    List.length_drop]
  congr 1
  apply List.map_congr_left
  intro i _
  simp [Function.comp, Nat.succ_mul, List.drop_drop, Nat.add_comm]

lemma create_batch_iterator_join {B : ℕ} (hB : 0 < B) (items : List α) :
    (create_batch_iterator items B).flatten = items := by
  have H : ∀ n (l : List α), l.length ≤ n →
      (create_batch_iterator l B).flatten = l := by
    intro n
    induction n with
    | zero =>
        intro l hl
        have : l = [] := List.eq_nil_of_length_eq_zero (Nat.le_zero.mp hl)
        subst this
        simp [create_batch_iterator_nil]
    | succ n ih =>
        intro l hl
        rcases eq_or_ne l [] with rfl | hne
        · simp [create_batch_iterator_nil]
        · rw [create_batch_iterator_cons hB l hne, List.flatten_cons,
            ih (l.drop B) ?_, List.take_append_drop]
          have := List.length_pos.mpr hne
          rw [List.length_drop]
          omega
  exact H items.length items le_rfl

lemma mem_of_mem_create_batch_iterator {l b : List α} {B : ℕ} {x : α}
    (hb : b ∈ create_batch_iterator l B) (hx : x ∈ b) : x ∈ l := by
  unfold create_batch_iterator at hb
  simp only [List.mem_map, List.mem_range] at hb
  obtain ⟨i, _, rfl⟩ := hb
  exact List.drop_subset _ _ (List.take_subset _ _ hx)

/-! ## C2 : merge additivity -/

/-- C2.  Result merging is additive and order-preserving: for every list of
partial result dictionaries, `merge_results` returns a dictionary whose
`test_results` list (and `errors` list) is the concatenation of the inputs'
`test_results` (resp. `errors`) in input order, and whose summary fields
`total_tests`, `successful`, `failed`, `execution_time` are each the sum of
the corresponding fields over all inputs, a missing `test_results`/`errors`
field contributing nothing (`getD []`) and a missing summary field (or
missing summary dict) contributing zero (`getD 0`). -/
theorem merge_results_additive (rs : List (PyResults α β)) :
    (merge_results rs).test_results =
      some ((rs.map (fun r => r.test_results.getD [])).flatten) ∧
    (merge_results rs).errors =
      some ((rs.map (fun r => r.errors.getD [])).flatten) ∧
    (merge_results rs).summary = some
      ⟨some ((rs.map (fun r => r.summaryD.total_tests.getD 0)).sum),
       some ((rs.map (fun r => r.summaryD.successful.getD 0)).sum),
       some ((rs.map (fun r => r.summaryD.failed.getD 0)).sum),
       some ((rs.map (fun r => r.summaryD.execution_time.getD 0)).sum)⟩ := by
  have h := foldl_mergeOne rs [] [] 0 0 0 0 false
  refine ⟨?_, ?_, ?_⟩ <;> simp [merge_results, h]

/-! ## C4 : batch splitting -/

/-- C4.  Batch splitting correctness: for every list of `N` items and every
batch size `B > 0`, `create_batch_iterator` returns exactly `⌈N/B⌉`
contiguous, non-overlapping sub-lists whose concatenation in order equals
the original list (so the items are covered exactly once, in order, with no
side effects — the embedding is a pure function); for `N = 0` it returns the
empty list.  `⌈N/B⌉` is `(N + B - 1) / B`, characterised by the last two
conjuncts. -/
theorem create_batch_iterator_correct (items : List α) (B : ℕ) (hB : 0 < B) :
    (create_batch_iterator items B).flatten = items ∧
    (create_batch_iterator items B).length = (items.length + B - 1) / B ∧
    (items = [] → create_batch_iterator items B = []) ∧
    items.length ≤ (create_batch_iterator items B).length * B ∧
    (create_batch_iterator items B).length * B < items.length + B := by
  refine ⟨create_batch_iterator_join hB items, by simp [create_batch_iterator],
    fun h => h ▸ create_batch_iterator_nil B, ?_, ?_⟩
  · have h1 : items.length + B - 1 <
        (items.length + B - 1) / B * B + B := Nat.lt_div_mul_add hB
    simp only [create_batch_iterator, List.length_map, List.length_range]
    omega
  · have h2 : (items.length + B - 1) / B * B ≤ items.length + B - 1 :=
      Nat.div_mul_le_self _ _
    simp only [create_batch_iterator, List.length_map, List.length_range]
    omega

/-- Witness for C4 at a concrete input (the spec's 12-items/batch-5
scenario): batch splitting gives 3 batches of sizes 5, 5, 2 that
concatenate back to the input. -/
theorem create_batch_iterator_witness :
    0 < 5 ∧
    (create_batch_iterator (List.range 12) 5).flatten = List.range 12 ∧
    create_batch_iterator (List.range 12) 5 =
      [[0, 1, 2, 3, 4], [5, 6, 7, 8, 9], [10, 11]] := by
  refine ⟨by decide, (create_batch_iterator_correct (List.range 12) 5
    (by decide)).1, by decide⟩

/-! ## C3 : retry bound, backoff schedule, transparent re-raise -/

lemma retryFrom_allFail {ρ : Type u} (f : ℕ → Except Exc ρ) (es : ℕ → Exc)
    (hf : ∀ n, f n = .error (es n)) (b : ℚ) :
    ∀ (fuel attempt : ℕ) (cur : ℚ) (calls : ℕ) (sleeps : List ℚ),
      retryFrom f b attempt fuel cur calls sleeps =
        ⟨.error (es (attempt + fuel)), calls + fuel + 1,
         sleeps ++ (List.range fuel).map (fun k => cur * b ^ k)⟩ := by
  intro fuel
  induction fuel with
  | zero =>
      intro attempt cur calls sleeps
      rw [retryFrom, hf]
      simp
  | succ fuel ih =>
      intro attempt cur calls sleeps
      rw [retryFrom, hf]
      simp only [ih]
      have harg : attempt + 1 + fuel = attempt + (fuel + 1) := by omega
      have hcalls : calls + 1 + fuel + 1 = calls + (fuel + 1) + 1 := by omega
      rw [harg, hcalls, List.append_assoc, List.range_succ_eq_map,
        List.map_cons, List.map_map]
      simp only [pow_zero, mul_one, List.singleton_append]
      congr 3
      apply List.map_congr_left
      intro k _
      simp only [Function.comp_apply, pow_succ]
      ring

lemma retryFrom_success {ρ : Type u} (f : ℕ → Except Exc ρ) (b : ℚ) (v : ρ) :
    ∀ (j attempt fuel : ℕ) (cur : ℚ) (calls : ℕ) (sleeps : List ℚ),
      (∀ i, i < j → (f (attempt + i)).isOk = false) →
      f (attempt + j) = .ok v → j ≤ fuel →
      (retryFrom f b attempt fuel cur calls sleeps).result = .ok v ∧
      (retryFrom f b attempt fuel cur calls sleeps).calls = calls + j + 1 := by
  intro j
  induction j with
  | zero =>
      intro attempt fuel cur calls sleeps _ hok _
      rw [retryFrom]
      simp only [Nat.add_zero] at hok
      rw [hok]
      exact ⟨rfl, rfl⟩
  | succ j ih =>
      intro attempt fuel cur calls sleeps herr hok hj
      have h0 := herr 0 (Nat.succ_pos j)
      cases hfa : f attempt with
      | ok w =>
          rw [Nat.add_zero] at h0
          rw [hfa] at h0
          simp [Except.isOk, Except.toBool] at h0
      | error e =>
          cases fuel with
          | zero => omega
          | succ fuel =>
              rw [retryFrom, hfa]
              have h1 : ∀ i, i < j → (f (attempt + 1 + i)).isOk = false := by
                intro i hi
                have := herr (i + 1) (by omega)
                rwa [show attempt + (i + 1) = attempt + 1 + i by omega] at this
              have h2 : f (attempt + 1 + j) = .ok v := by
                rwa [show attempt + 1 + j = attempt + (j + 1) by omega]
              have := ih (attempt + 1) fuel (cur * b) (calls + 1)
                (sleeps ++ [cur]) h1 h2 (by omega)
              exact ⟨this.1, by rw [this.2]; omega⟩

/-- C3.  Retry bound and transparent re-raise, for the wrapper produced by
`retry_with_backoff(max_retries, delay, backoff_factor)` applied to `f`:
(1) if every invocation of `f` raises, the wrapper invokes `f` exactly
`max_retries + 1` times, re-raises exactly the exception object of the final
invocation (same value, hence same type and message), and sleeps
`max_retries` times, the `k`-th sleep (0-indexed here) lasting
`delay * backoff_factor ^ k` — i.e. `delay * backoff_factor ^ (k-1)` for the
`k`-th sleep counted from 1; (2) if `f` fails on its first `k` invocations
with `k < max_retries` and then succeeds, the wrapper returns the successful
value (raising nothing) after exactly `k + 1` invocations. -/
theorem retry_with_backoff_spec {ρ : Type u} (f : ℕ → Except Exc ρ)
    (es : ℕ → Exc) (max_retries : ℕ) (delay b : ℚ) (k : ℕ) (v : ρ) :
    ((∀ n, f n = .error (es n)) →
      retry_with_backoff f max_retries delay b =
        ⟨.error (es max_retries), max_retries + 1,
         (List.range max_retries).map (fun i => delay * b ^ i)⟩) ∧
    ((∀ i, i < k → (f i).isOk = false) → f k = .ok v → k < max_retries →
      (retry_with_backoff f max_retries delay b).result = .ok v ∧
      (retry_with_backoff f max_retries delay b).calls = k + 1) := by
  constructor
  · intro hf
    rw [retry_with_backoff, retryFrom_allFail f es hf]
    simp
  · intro herr hok hk
    have := retryFrom_success f b v k 0 max_retries delay 0 []
      (by simpa using herr) (by simpa using hok) (le_of_lt hk)
    rw [retry_with_backoff]
    exact ⟨this.1, by rw [this.2]; omega⟩


/-- Witness for C3 at concrete inputs: an always-failing callable under
`retry_with_backoff(2, 1.0, 2.0)` is invoked 3 times, the original
`ValueError` is re-raised, and the sleeps are `[1.0, 2.0]`; a callable
failing once then succeeding returns the successful value after 2 calls. -/
theorem retry_with_backoff_witness :
    retry_with_backoff
        (fun _ => (Except.error ⟨"ValueError", ["Exception", "BaseException"],
            "boom"⟩ : Except Exc ℕ)) 2 1 2 =
      ⟨.error ⟨"ValueError", ["Exception", "BaseException"], "boom"⟩, 3,
       [1, 2]⟩ ∧
    (retry_with_backoff
        (fun n => if n < 1 then
            (Except.error ⟨"ValueError", ["Exception", "BaseException"],
              "boom"⟩ : Except Exc ℕ)
          else Except.ok 42) 2 1 2).result = .ok 42 ∧
    (retry_with_backoff
        (fun n => if n < 1 then
            (Except.error ⟨"ValueError", ["Exception", "BaseException"],
              "boom"⟩ : Except Exc ℕ)
          else Except.ok 42) 2 1 2).calls = 2 := by
  refine ⟨?_, ?_, ?_⟩
  · have h := (retry_with_backoff_spec
      (fun _ => (Except.error ⟨"ValueError", ["Exception", "BaseException"],
          "boom"⟩ : Except Exc ℕ))
      (fun _ => ⟨"ValueError", ["Exception", "BaseException"], "boom"⟩)
      2 1 2 0 0).1 (fun _ => rfl)
    rw [h]
    have hsl : List.map (fun i => (1 : ℚ) * 2 ^ i) (List.range 2) = [1, 2] := by
      norm_num [List.range_succ]
    rw [hsl]
  · exact ((retry_with_backoff_spec _
      (fun _ => ⟨"ValueError", ["Exception", "BaseException"], "boom"⟩)
      2 1 2 1 42).2 (by decide) rfl (by decide)).1
  · exact ((retry_with_backoff_spec _
      (fun _ => ⟨"ValueError", ["Exception", "BaseException"], "boom"⟩)
      2 1 2 1 42).2 (by decide) rfl (by decide)).2

/-! ## C5 : inter-layer filtering invariant -/

lemma resumeWorking_subset {ρ : Type u} {ι : Type v} {β : Type v}
    (items : List ι) (getItemId : ι → Option String)
    (loaded : Option (PyResults ρ β)) (getRecId : ρ → String) :
    ∀ y ∈ (resumeWorking items getItemId loaded getRecId).2, y ∈ items := by
  intro y hy
  rcases loaded with _ | cp
  · exact hy
  · simp only [resumeWorking] at hy
    by_cases ht : cp.truthy = true
    · rw [if_pos ht] at hy
      exact List.mem_of_mem_filter hy
    · rw [if_neg ht] at hy
      exact hy

lemma mem_of_mem_resumeAndBatch {ρ : Type u} {ι : Type v} {β : Type v}
    {items : List ι} {getItemId : ι → Option String}
    {loaded : Option (PyResults ρ β)} {getRecId : ρ → String} {B : ℕ}
    {b : List ι} {x : ι}
    (hb : b ∈ (resumeAndBatch items getItemId loaded getRecId B).batches)
    (hx : x ∈ b) : x ∈ items := by
  unfold resumeAndBatch at hb
  by_cases hc : (resumeWorking items getItemId loaded getRecId).2.isEmpty
  · rw [if_pos hc] at hb
    simp [DriverOutcome.batches] at hb
  · rw [if_neg hc] at hb
    exact resumeWorking_subset items getItemId loaded getRecId x
      (mem_of_mem_create_batch_iterator
        (by simpa [DriverOutcome.batches] using hb) hx)

/-- C5.  Inter-layer filtering invariant: no layer-1 record lacking a truthy
`success` or lacking a `workflow_json` key is ever placed in a layer-2
batch, and no layer-2 record with falsy `overall_success` is ever placed in
a layer-3 batch, whatever the previous layer's results, the loaded
checkpoint and the batch size are. -/
theorem layer_filtering {β : Type v} (l1 : PyResults L1Rec β)
    (l2 : PyResults L2Rec β) (cp2 : Option (PyResults L2Rec ErrorDetails))
    (cp3 : Option (PyResults L3Rec ErrorDetails)) (B : ℕ) :
    (∀ b ∈ (run_layer_2_evaluation l1 cp2 B).batches, ∀ r ∈ b,
      r.success = true ∧ r.has_workflow_json = true) ∧
    (∀ b ∈ (run_layer_3_evaluation l2 cp3 B).batches, ∀ r ∈ b,
      r.overall_success = true) := by
  constructor
  · intro b hb r hr
    unfold run_layer_2_evaluation at hb
    by_cases hc : ((l1.test_results.getD []).filter
        (fun r => r.success && r.has_workflow_json)).isEmpty
    · rw [if_pos hc] at hb
      simp [DriverOutcome.batches] at hb
    · rw [if_neg hc] at hb
      have hmem : r ∈ (l1.test_results.getD []).filter
          (fun r => r.success && r.has_workflow_json) :=
        mem_of_mem_resumeAndBatch hb hr
      have := List.of_mem_filter hmem
      simp only [Bool.and_eq_true] at this
      exact this
  · intro b hb r hr
    unfold run_layer_3_evaluation at hb
    by_cases hc : ((l2.test_results.getD []).filter
        (fun r => r.overall_success)).isEmpty
    · rw [if_pos hc] at hb
      simp [DriverOutcome.batches] at hb
    · rw [if_neg hc] at hb
      have hmem : r ∈ (l2.test_results.getD []).filter
          (fun r => r.overall_success) :=
        mem_of_mem_resumeAndBatch hb hr
      exact List.of_mem_filter hmem

/-- Witness for C5 at a concrete input: from two layer-1 records, one
successful with a workflow and one failed, only the successful one is
batched by the layer-2 driver, and it indeed satisfies the invariant. -/
theorem layer_filtering_witness :
    (run_layer_2_evaluation
        (⟨some [⟨"a", true, true⟩, ⟨"b", false, true⟩], some [], none, false⟩ :
          PyResults L1Rec ErrorDetails) none 10).batches =
      [[⟨"a", true, true⟩]] ∧
    (⟨"a", true, true⟩ : L1Rec).success = true ∧
    (⟨"a", true, true⟩ : L1Rec).has_workflow_json = true := by
  refine ⟨by decide, ?_⟩
  exact (layer_filtering
    (⟨some [⟨"a", true, true⟩, ⟨"b", false, true⟩], some [], none, false⟩ :
      PyResults L1Rec ErrorDetails)
    (⟨none, none, none, false⟩ : PyResults L2Rec ErrorDetails)
    none none 10).1 [⟨"a", true, true⟩] (by decide) ⟨"a", true, true⟩
    (by decide)

/-! ## C10 : batch-worker summary invariant -/

lemma run_batch_worker_results_length {ι : Type v} {ρ : Type u}
    (test_batch : List ι) (evalOutcome : ι → Except Exc ρ)
    (h : ∀ t ∈ test_batch, (evalOutcome t).isOk = true) :
    (test_batch.filterMap (fun t => (evalOutcome t).toOption)).length =
      test_batch.length := by
  induction test_batch with
  | nil => rfl
  | cons t ts ih =>
      have ht := h t (List.mem_cons_self t ts)
      cases hfa : evalOutcome t with
      | ok w =>
          simp only [List.filterMap_cons, hfa, Except.toOption,
            List.length_cons]
          simp only [Except.toOption] at ih
          rw [ih (fun x hx => h x (List.mem_cons_of_mem t hx))]
      | error e => rw [hfa] at ht; simp [Except.isOk, Except.toBool] at ht

/-- C10.  Implicit batch-summary invariant, shared by
`evaluate_structure_batch`, `execute_workflows_batch` and
`evaluate_outputs_batch` (all three are instances of `run_batch_worker`):
whenever every per-item evaluator call returns (none raises out of the
per-item guard), the worker's summary satisfies
`successful = len(test_results) = total_tests = len(batch)` and
`failed = len(errors) = 0`.  The summary counts produced records: the
per-item outcomes are arbitrary records, so a returned record that itself
reports `success=False` still increments `successful` (see the witness). -/
theorem batch_worker_summary {ι : Type v} {ρ : Type u}
    (test_batch : List ι) (evalOutcome : ι → Except Exc ρ)
    (getId : ι → Option String) (elapsed : ℚ)
    (h : ∀ t ∈ test_batch, (evalOutcome t).isOk = true) :
    ((run_batch_worker test_batch evalOutcome getId elapsed).test_results.getD
        []).length = test_batch.length ∧
    (run_batch_worker test_batch evalOutcome getId elapsed).errors =
      some [] ∧
    (run_batch_worker test_batch evalOutcome getId elapsed).summary =
      some ⟨some (test_batch.length : ℤ), some (test_batch.length : ℤ),
            some 0, some elapsed⟩ := by
  have hres := run_batch_worker_results_length test_batch evalOutcome h
  have herr : test_batch.filterMap (fun t =>
      match evalOutcome t with
      | .ok _ => none
      | .error e =>
          some { capture_exception_details e with
                   test_id := some ((getId t).getD "unknown") }) =
      ([] : List ErrorDetails) := by
    rw [List.filterMap_eq_nil_iff]
    intro t ht
    have := h t ht
    cases hfa : evalOutcome t with
    | ok w => simp
    | error e => rw [hfa] at this; simp [Except.isOk, Except.toBool] at this
  refine ⟨?_, ?_, ?_⟩
  · simpa [run_batch_worker] using hres
  · simp [run_batch_worker, herr]
  · simp [run_batch_worker, herr, hres]

/-- Witness for C10 at a concrete input: a batch of two items whose
evaluator calls both return records with `success=False`; the summary still
reports `successful = 2`, `failed = 0`, `total_tests = 2`. -/
theorem batch_worker_summary_witness :
    (∀ t ∈ [⟨some "a"⟩, ⟨some "b"⟩],
      ((fun t : TestItem => (Except.ok (⟨t.workflow_id, false, none, none⟩ :
          L1Out Unit) : Except Exc (L1Out Unit))) t).isOk = true) ∧
    (run_batch_worker [⟨some "a"⟩, ⟨some "b"⟩]
        (fun t : TestItem => (Except.ok (⟨t.workflow_id, false, none, none⟩ :
          L1Out Unit) : Except Exc (L1Out Unit)))
        TestItem.workflow_id 1).summary =
      some ⟨some 2, some 2, some 0, some 1⟩ ∧
    (run_batch_worker [⟨some "a"⟩, ⟨some "b"⟩]
        (fun t : TestItem => (Except.ok (⟨t.workflow_id, false, none, none⟩ :
          L1Out Unit) : Except Exc (L1Out Unit)))
        TestItem.workflow_id 1).test_results =
      some [⟨some "a", false, none, none⟩, ⟨some "b", false, none, none⟩] := by
  refine ⟨fun t _ => rfl, ?_, by rfl⟩
  exact (batch_worker_summary [⟨some "a"⟩, ⟨some "b"⟩]
    (fun t : TestItem => (Except.ok (⟨t.workflow_id, false, none, none⟩ :
      L1Out Unit) : Except Exc (L1Out Unit)))
    TestItem.workflow_id 1 (fun t _ => rfl)).2.2

/-! ## C1 : checkpoint resumption -/

/-- C1 counterexample.  The claim quantifies over every loaded checkpoint
and input list; take the loaded checkpoint `{}` (an empty but successfully
parsed JSON object, which `load_checkpoint` returns as an empty dict) and
the empty input list.  The claim's hypothesis — every input item's
`workflow_id` is among the checkpoint's `test_results` ids — holds
vacuously, and no batch is dispatched and no checkpoint written, but
because an empty dict is falsy, `run_layer_1_evaluation` replaces it by the
fresh checkpoint `{'test_results': [], 'errors': [], 'summary': {}}` and
returns that object, which differs from the loaded checkpoint: the claim's
"returns the loaded checkpoint object unchanged" is false as stated. -/
theorem checkpoint_resume_counterexample :
    (∀ t ∈ ([] : List TestItem), ∃ s, t.workflow_id = some s ∧
      s ∈ (((⟨none, none, none, false⟩ : PyResults L1Rec ErrorDetails)
        ).test_results.getD []).map L1Rec.test_id) ∧
    run_layer_1_evaluation []
        (some (⟨none, none, none, false⟩ : PyResults L1Rec ErrorDetails)) 10 =
      .earlyReturn freshCheckpoint ∧
    (freshCheckpoint : PyResults L1Rec ErrorDetails) ≠
      ⟨none, none, none, false⟩ := by
  exact ⟨fun t ht => absurd ht (List.not_mem_nil t), by decide, by decide⟩

lemma resumeAndBatch_earlyReturn {ρ : Type u} {ι : Type v} {β : Type v}
    (items : List ι) (getItemId : ι → Option String) (cp : PyResults ρ β)
    (getRecId : ρ → String) (B : ℕ) (hne : items ≠ [])
    (hall : ∀ t ∈ items, ∃ s, getItemId t = some s ∧
      s ∈ (cp.test_results.getD []).map getRecId) :
    resumeAndBatch items getItemId (some cp) getRecId B =
      .earlyReturn cp := by
  have ht : cp.truthy = true := by
    obtain ⟨t0, ht0⟩ := List.exists_mem_of_ne_nil items hne
    obtain ⟨s, _, hs⟩ := hall t0 ht0
    have hne' : cp.test_results.getD [] ≠ [] := by
      intro hnil
      rw [hnil] at hs
      simp at hs
    have hsome : cp.test_results.isSome = true := by
      cases hcp : cp.test_results with
      | none => rw [hcp] at hne'; simp at hne'
      | some l => rfl
    simp [PyResults.truthy, hsome]
  have hfilter : items.filter (fun t =>
      match getItemId t with
      | none => true
      | some s => !(((cp.test_results.getD []).map getRecId).contains s)) =
      [] := by
    rw [List.filter_eq_nil_iff]
    intro t htin
    obtain ⟨s, hgid, hs⟩ := hall t htin
    rw [hgid]
    simp [hs]
  have hres : resumeWorking items getItemId (some cp) getRecId = (cp, []) :=
    by
    simp only [resumeWorking]
    rw [if_pos ht]
    exact congrArg (Prod.mk cp) hfilter
  simp only [resumeAndBatch]
  rw [hres]
  simp

/-- C1 (amended).  Checkpoint resumption is idempotent provided the
driver's working list is non-empty (which forces the loaded checkpoint dict
to be non-empty, hence truthy): for each of the three layer drivers, if
every working item's id is among the `test_id` values of the loaded
checkpoint's `test_results`, the driver filters the working list to empty
and returns the loaded checkpoint object unchanged, before any batch is
dispatched or any new checkpoint written (`DriverOutcome.earlyReturn`).
For `run_layer_1_evaluation` the working list is the input `test_data` and
the item id is `workflow_id`; for layers 2 and 3 the working list is the
previous layer's success-filtered records, keyed by `test_id`. -/
theorem checkpoint_resume_idempotent {β : Type v}
    (test_data : List TestItem) (cp1 : PyResults L1Rec ErrorDetails)
    (l1 : PyResults L1Rec β) (cp2 : PyResults L2Rec ErrorDetails)
    (l2 : PyResults L2Rec β) (cp3 : PyResults L3Rec ErrorDetails) (B : ℕ) :
    (test_data ≠ [] →
      (∀ t ∈ test_data, ∃ s, t.workflow_id = some s ∧
        s ∈ (cp1.test_results.getD []).map L1Rec.test_id) →
      run_layer_1_evaluation test_data (some cp1) B = .earlyReturn cp1) ∧
    ((l1.test_results.getD []).filter
        (fun r => r.success && r.has_workflow_json) ≠ [] →
      (∀ r ∈ (l1.test_results.getD []).filter
          (fun r => r.success && r.has_workflow_json),
        r.test_id ∈ (cp2.test_results.getD []).map L2Rec.test_id) →
      run_layer_2_evaluation l1 (some cp2) B = .earlyReturn cp2) ∧
    ((l2.test_results.getD []).filter (fun r => r.overall_success) ≠ [] →
      (∀ r ∈ (l2.test_results.getD []).filter (fun r => r.overall_success),
        r.test_id ∈ (cp3.test_results.getD []).map L3Rec.test_id) →
      run_layer_3_evaluation l2 (some cp3) B = .earlyReturn cp3) := by
  refine ⟨?_, ?_, ?_⟩
  · intro hne hall
    exact resumeAndBatch_earlyReturn test_data TestItem.workflow_id cp1
      L1Rec.test_id B hne hall
  · intro hne hall
    unfold run_layer_2_evaluation
    rw [if_neg (by simpa [List.isEmpty_iff] using hne)]
    exact resumeAndBatch_earlyReturn _ _ cp2 L2Rec.test_id B hne
      (fun r hr => ⟨r.test_id, rfl, hall r hr⟩)
  · intro hne hall
    unfold run_layer_3_evaluation
    rw [if_neg (by simpa [List.isEmpty_iff] using hne)]
    exact resumeAndBatch_earlyReturn _ _ cp3 L3Rec.test_id B hne
      (fun r hr => ⟨r.test_id, rfl, hall r hr⟩)

/-- Witness for C1 (amended) at concrete inputs: each driver, given a
non-empty working list all of whose ids already appear in the loaded
checkpoint's `test_results`, returns that checkpoint unchanged. -/
theorem checkpoint_resume_witness :
    run_layer_1_evaluation [⟨some "a"⟩]
        (some ⟨some [⟨"a", true, true⟩], some [], some SummaryD.empty,
          true⟩) 10 =
      .earlyReturn
        ⟨some [⟨"a", true, true⟩], some [], some SummaryD.empty, true⟩ ∧
    run_layer_2_evaluation
        (⟨some [⟨"w", true, true⟩], none, none, false⟩ :
          PyResults L1Rec ErrorDetails)
        (some ⟨some [⟨"w", true⟩], some [], some SummaryD.empty, true⟩) 10 =
      .earlyReturn
        ⟨some [⟨"w", true⟩], some [], some SummaryD.empty, true⟩ ∧
    run_layer_3_evaluation
        (⟨some [⟨"w", true⟩], none, none, false⟩ :
          PyResults L2Rec ErrorDetails)
        (some ⟨some [⟨"w"⟩], some [], some SummaryD.empty, true⟩) 10 =
      .earlyReturn ⟨some [⟨"w"⟩], some [], some SummaryD.empty, true⟩ := by
  have h := checkpoint_resume_idempotent [⟨some "a"⟩]
    ⟨some [⟨"a", true, true⟩], some [], some SummaryD.empty, true⟩
    (⟨some [⟨"w", true, true⟩], none, none, false⟩ :
      PyResults L1Rec ErrorDetails)
    ⟨some [⟨"w", true⟩], some [], some SummaryD.empty, true⟩
    (⟨some [⟨"w", true⟩], none, none, false⟩ :
      PyResults L2Rec ErrorDetails)
    ⟨some [⟨"w"⟩], some [], some SummaryD.empty, true⟩ 10
  refine ⟨h.1 (by decide) ?_, h.2.1 (by decide) (by decide),
    h.2.2 (by decide) (by decide)⟩
  intro t ht
  have : t = ⟨some "a"⟩ := by simpa using ht
  subst this
  exact ⟨"a", rfl, by decide⟩

/-! ## C8 : batch-level failure isolation -/

/-- C8 counterexample.  A dispatch round with one batch of size `S = 2`
whose future raises: the driver's synthetic entry has
`summary = {'total_tests': 2, 'successful': 0, 'failed': 1}` — the `failed`
counter is the constant `1` (one captured batch-level error), not the batch
size, so the claim's "a summary counting all `S` items of the batch as
failed" is false for any batch with more than one item. -/
theorem batch_failure_counterexample :
    (collect_batch_results (ρ := L1Rec) (ι := TestItem)
        [[⟨some "x"⟩, ⟨some "y"⟩]]
        [(0, .error ⟨"RuntimeError", ["Exception", "BaseException"],
          "worker died"⟩)]).map (fun r => r.summaryD.failed) = [some 1] ∧
    (collect_batch_results (ρ := L1Rec) (ι := TestItem)
        [[⟨some "x"⟩, ⟨some "y"⟩]]
        [(0, .error ⟨"RuntimeError", ["Exception", "BaseException"],
          "worker died"⟩)]).map (fun r => r.summaryD.total_tests) =
      [some 2] ∧
    (some (1 : ℤ)) ≠ (some (2 : ℤ)) := by
  exact ⟨by decide, by decide, by decide⟩

lemma collect_batch_results_eq_map {ρ : Type u} {ι : Type v}
    (batches : List (List ι))
    (completions : List (ℕ × Except Exc (PyResults ρ ErrorDetails))) :
    collect_batch_results batches completions =
      completions.map (fun c =>
        match c.2 with
        | .ok r => r
        | .error e =>
            syntheticFailedBatch (batches.getD c.1 []).length e) := by
  have key : ∀ (cs : List (ℕ × Except Exc (PyResults ρ ErrorDetails)))
      (acc : List (PyResults ρ ErrorDetails)),
      cs.foldl (fun all_results c =>
        match c.2 with
        | .ok batch_result => all_results ++ [batch_result]
        | .error e =>
            all_results ++
              [syntheticFailedBatch (batches.getD c.1 []).length e]) acc =
      acc ++ cs.map (fun c =>
        match c.2 with
        | .ok r => r
        | .error e =>
            syntheticFailedBatch (batches.getD c.1 []).length e) := by
    intro cs
    induction cs with
    | nil => intro acc; simp
    | cons c cs ih =>
        intro acc
        rw [List.foldl_cons, List.map_cons, ih]
        cases c.2 <;> simp
  rw [collect_batch_results]
  simpa using key completions []

/-- C8 (amended).  Batch-level failure isolation: in every dispatch round,
the collection loop appends exactly one entry per completed future, in
completion order — it continues collecting after a failure rather than
aborting — and the entry for a future that raised is the synthetic
batch result with empty `test_results`, exactly one captured error, and a
summary with `total_tests` equal to the size `S` of that batch,
`successful = 0` and `failed = 1` (the single captured batch-level error;
not `S`, so for `S > 1` the summary does not count every item of the batch
as failed). -/
theorem batch_failure_isolation {ρ : Type u} {ι : Type v}
    (batches : List (List ι))
    (completions : List (ℕ × Except Exc (PyResults ρ ErrorDetails))) :
    (collect_batch_results batches completions).length =
      completions.length ∧
    (∀ k : ℕ, (collect_batch_results batches completions)[k]? =
      (completions[k]?).map
        (fun c : ℕ × Except Exc (PyResults ρ ErrorDetails) =>
          match c.2 with
          | .ok r => r
          | .error e =>
              syntheticFailedBatch (batches.getD c.1 []).length e)) ∧
    (∀ n (e : Exc),
      (syntheticFailedBatch (ρ := ρ) n e).test_results = some [] ∧
      (syntheticFailedBatch (ρ := ρ) n e).errors =
        some [capture_exception_details e] ∧
      (syntheticFailedBatch (ρ := ρ) n e).summary =
        some ⟨some (n : ℤ), some 0, some 1, none⟩) := by
  refine ⟨?_, ?_, fun n e => ⟨rfl, rfl, rfl⟩⟩
  · rw [collect_batch_results_eq_map]
    simp
  · intro k
    rw [collect_batch_results_eq_map]
    exact List.getElem?_map _ _ _

/-! ## C6 : checkpoint save contract -/

/-- C6 counterexample.  Two parts of the claim fail on the code.
(1) `save_checkpoint` does not create the checkpoint directory: on a file
system where `checkpoints` does not exist, `open(filepath, 'w')` raises
`FileNotFoundError` instead of writing (directory creation happens
elsewhere, in `EvaluationConfig.__post_init__`).
(2) It can overwrite a previously written checkpoint: the timestamp has
one-second granularity, so a second save of the same layer in the same
second produces the same file name and truncates the earlier file — here
the stored content changes from `"old"` to `"new"`. -/
theorem save_checkpoint_counterexample :
    (save_checkpoint ⟨[], []⟩ "checkpoints" 1 "20250101_000000"
      "\x7b\x7d").isOk = false ∧
    ((save_checkpoint
        ⟨["checkpoints"],
         [("checkpoints/layer_1_checkpoint_20250101_000000.json", "old")]⟩
        "checkpoints" 1 "20250101_000000" "new").map
      (fun r =>
        r.1.read "checkpoints/layer_1_checkpoint_20250101_000000.json") =
      .ok (some "new")) ∧
    some "new" ≠ some "old" := by
  exact ⟨by decide, by rfl, by decide⟩

/-- C6 (amended).  Checkpoint save contract, provided the directory already
exists: `save_checkpoint(dir, layer, data)` at timestamp `now` writes the
serialized data to the file `dir/layer_<layer>_checkpoint_<now>.json`,
returns that path, leaves every other file and the set of directories
unchanged — and overwrites that file if a checkpoint of the same layer was
already written in the same second.  It does not create the directory: if
`dir` does not exist the call raises (`FileNotFoundError`) instead of
writing; creating the directories is done by `EvaluationConfig`. -/
theorem save_checkpoint_spec (fs : FS) (dir : String) (layer : ℕ)
    (now data : String) :
    (dir ∈ fs.dirs →
      save_checkpoint fs dir layer now data =
        .ok (⟨fs.dirs,
              (dir ++ "/" ++ ("layer_" ++ toString layer ++ "_checkpoint_" ++
                now ++ ".json"), data) :: fs.files⟩,
             dir ++ "/" ++ ("layer_" ++ toString layer ++ "_checkpoint_" ++
               now ++ ".json")) ∧
      (∀ fs' p, save_checkpoint fs dir layer now data = .ok (fs', p) →
        fs'.read p = some data ∧ fs'.dirs = fs.dirs ∧
        ∀ q, q ≠ p → fs'.read q = fs.read q)) ∧
    (dir ∉ fs.dirs → (save_checkpoint fs dir layer now data).isOk = false) := by
  constructor
  · intro hdir
    constructor
    · rw [save_checkpoint]
      rw [if_pos hdir]
    · intro fs' p hok
      rw [save_checkpoint, if_pos hdir] at hok
      cases hok
      refine ⟨?_, rfl, ?_⟩
      · simp [FS.read, List.find?]
      · intro q hq
        simp only [FS.read, List.find?_cons]
        rw [decide_eq_false (fun h => hq h.symm)]
  · intro hdir
    rw [save_checkpoint, if_neg hdir]
    rfl

/-- Witness for C6 (amended) at concrete inputs: saving into an existing
directory writes the checkpoint file and returns its path; saving into a
missing directory fails. -/
theorem save_checkpoint_witness :
    "ck" ∈ (⟨["ck"], []⟩ : FS).dirs ∧
    save_checkpoint ⟨["ck"], []⟩ "ck" 2 "20250101_000000" "\x7b\x7d" =
      .ok (⟨["ck"], [("ck/layer_2_checkpoint_20250101_000000.json", "\x7b\x7d")]⟩,
           "ck/layer_2_checkpoint_20250101_000000.json") ∧
    "ck" ∉ (⟨[], []⟩ : FS).dirs ∧
    (save_checkpoint ⟨[], []⟩ "ck" 2 "20250101_000000" "\x7b\x7d").isOk =
      false := by
  refine ⟨by decide, ?_, by decide, ?_⟩
  · have h := ((save_checkpoint_spec ⟨["ck"], []⟩ "ck" 2 "20250101_000000"
      "\x7b\x7d").1 (by decide)).1
    rw [h]
    rfl
  · exact (save_checkpoint_spec ⟨[], []⟩ "ck" 2 "20250101_000000"
      "\x7b\x7d").2 (by decide)

/-! ## C7 : layer-1 generator failure -/

/-- C7 counterexample.  A layer-1 item whose generator call raises
`ValueError`: `evaluate_workflow_structure` catches it, but the inner
`except` re-raises it wrapped as
`WorkFlowGenerationFailed(f"Failed to generate workflow for {id}: {e}")`,
so the structured error captured by the outer `except` has
`type == "WorkFlowGenerationFailed"` (the wrapper class's name), not
`"ValueError"` as the claim states. -/
theorem generator_failure_counterexample :
    ((evaluate_workflow_structure (ω := Unit) ⟨some "wf1"⟩
        (fun _ => .raises ⟨"ValueError", ["Exception", "BaseException"],
          "bad input"⟩)).result.map
      (fun r => r.error.map ErrorDetails.ty)) =
      .ok (some "WorkFlowGenerationFailed") ∧
    "WorkFlowGenerationFailed" ≠ "ValueError" := by
  exact ⟨by rfl, by decide⟩

/-- C7 (amended).  Layer-1 generator-failure handling: for every test item
whose workflow-generator call raises `ValueError` on every attempt,
`evaluate_workflow_structure` does not raise — its (retry-wrapped) call
returns on the first attempt — and the returned record has
`success == False`, no `workflow_json`, and a structured error whose `type`
field equals `"WorkFlowGenerationFailed"` (the wrapper exception into which
the generator's `ValueError` is converted; spec-modelled as a `ValueError`
subclass, so `is_expected` is `True`). -/
theorem generator_failure_handling {ω : Type u} (item : TestItem)
    (gen : ℕ → GenOutcome ω) (es : ℕ → Exc)
    (hgen : ∀ n, gen n = .raises (es n))
    (_hty : ∀ n, (es n).ty = "ValueError") :
    (evaluate_workflow_structure item gen).result =
      .ok (evaluate_workflow_structure_body item (gen 0)) ∧
    (evaluate_workflow_structure item gen).calls = 1 ∧
    ∀ r, (evaluate_workflow_structure item gen).result = .ok r →
      r.success = false ∧
      r.error.map ErrorDetails.ty = some "WorkFlowGenerationFailed" ∧
      r.error.map ErrorDetails.is_expected = some true ∧
      r.workflow_json = none := by
  have hres := retryFrom_success
    (fun n => (Except.ok (evaluate_workflow_structure_body item (gen n)) :
      Except Exc (L1Out ω))) 2
    (evaluate_workflow_structure_body item (gen 0)) 0 0 3 2 0 []
    (fun i hi => absurd hi (Nat.not_lt_zero i)) rfl (by omega)
  have h1 : (evaluate_workflow_structure item gen).result =
      .ok (evaluate_workflow_structure_body item (gen 0)) := by
    rw [evaluate_workflow_structure, retry_with_backoff]
    exact hres.1
  refine ⟨h1, ?_, ?_⟩
  · rw [evaluate_workflow_structure, retry_with_backoff, hres.2]
  · intro r hr
    rw [h1] at hr
    have hr' : r = evaluate_workflow_structure_body item (gen 0) :=
      (Except.ok.inj hr).symm
    subst hr'
    rw [hgen 0]
    exact ⟨rfl, rfl, rfl, rfl⟩

/-- Witness for C7 (amended) at a concrete input: a generator that raises
`ValueError("bad input")` on every attempt yields a non-raising result
record with `success == False`, error type `"WorkFlowGenerationFailed"` and
`is_expected == True`, after a single call of the decorated body. -/
theorem generator_failure_witness :
    (evaluate_workflow_structure (ω := Unit) ⟨some "wf1"⟩
        (fun _ => .raises ⟨"ValueError", ["Exception", "BaseException"],
          "bad input"⟩)).calls = 1 ∧
    ((evaluate_workflow_structure (ω := Unit) ⟨some "wf1"⟩
        (fun _ => .raises ⟨"ValueError", ["Exception", "BaseException"],
          "bad input"⟩)).result.map
      (fun r => (r.success, r.workflow_json,
        r.error.map ErrorDetails.is_expected))) =
      .ok (false, none, some true) := by
  have h := generator_failure_handling (ω := Unit) ⟨some "wf1"⟩
    (fun _ => .raises ⟨"ValueError", ["Exception", "BaseException"],
      "bad input"⟩)
    (fun _ => ⟨"ValueError", ["Exception", "BaseException"], "bad input"⟩)
    (fun _ => rfl) (fun _ => rfl)
  refine ⟨h.2.1, ?_⟩
  rw [h.1]
  rfl

/-! ## C9 : layer-3 aggregation arithmetic -/

lemma pyListMin_mem (x : ℚ) (xs : List ℚ) : pyListMin x xs ∈ x :: xs := by
  simp only [pyListMin]
  induction xs generalizing x with
  | nil => simp
  | cons y ys ih =>
      rw [List.foldl_cons]
      rcases List.mem_cons.mp (ih (min x y)) with h1 | h1
      · rw [h1]
        rcases min_choice x y with hm | hm <;> rw [hm] <;> simp
      · simp [h1]

lemma pyListMin_le (x : ℚ) (xs : List ℚ) :
    ∀ y ∈ x :: xs, pyListMin x xs ≤ y := by
  simp only [pyListMin]
  induction xs generalizing x with
  | nil =>
      intro y hy
      rw [List.mem_singleton] at hy
      simp [hy]
  | cons z zs ih =>
      intro y hy
      rw [List.foldl_cons]
      rcases List.mem_cons.mp hy with h1 | hy'
      · rw [h1]
        exact le_trans (ih (min x z) (min x z) (List.mem_cons_self _ _))
          (min_le_left x z)
      · rcases List.mem_cons.mp hy' with h2 | hy''
        · rw [h2]
          exact le_trans (ih (min x z) (min x z) (List.mem_cons_self _ _))
            (min_le_right x z)
        · exact ih (min x z) y (List.mem_cons_of_mem _ hy'')

lemma pyListMax_mem (x : ℚ) (xs : List ℚ) : pyListMax x xs ∈ x :: xs := by
  simp only [pyListMax]
  induction xs generalizing x with
  | nil => simp
  | cons y ys ih =>
      rw [List.foldl_cons]
      rcases List.mem_cons.mp (ih (max x y)) with h1 | h1
      · rw [h1]
        rcases max_choice x y with hm | hm <;> rw [hm] <;> simp
      · simp [h1]

lemma pyListMax_ge (x : ℚ) (xs : List ℚ) :
    ∀ y ∈ x :: xs, y ≤ pyListMax x xs := by
  simp only [pyListMax]
  induction xs generalizing x with
  | nil =>
      intro y hy
      rw [List.mem_singleton] at hy
      simp [hy]
  | cons z zs ih =>
      intro y hy
      rw [List.foldl_cons]
      rcases List.mem_cons.mp hy with h1 | hy'
      · rw [h1]
        have hup := ih (max x z) (max x z) (List.mem_cons_self _ _)
        exact le_trans (le_max_left x z) hup
      · rcases List.mem_cons.mp hy' with h2 | hy''
        · rw [h2]
          have hup := ih (max x z) (max x z) (List.mem_cons_self _ _)
          exact le_trans (le_max_right x z) hup
        · exact ih (max x z) y (List.mem_cons_of_mem _ hy'')

/-- C9.  Layer-3 aggregation arithmetic.  (1) Per criterion: when scores
were collected, the aggregated entry's `average_score` is their mean
(sum over length), `min_score`/`max_score` are an attained lower/upper
bound of the collected scores, and `score_variance` is `max - min` when
more than one score was collected and `0` for a single score.
(2) `_aggregate_evaluations` (when some evaluation succeeded) carries one
such entry per criterion with collected scores, and its
`overall_average_score` is the mean of the present per-criterion means,
labelled through `_get_quality_assessment`.  (3) `_get_quality_assessment`
maps a score to `"Excellent"` iff it is `≥ 8.0`, else `"Good"` iff `≥ 7.0`,
else `"Satisfactory"` iff `≥ 6.0`, else `"Below Average"` iff `≥ 5.0`,
else `"Poor"`. -/
theorem aggregate_evaluations_spec (evaluations : List IndivEval)
    (pick : QualityScores → Option CriterionScore) (q : ℚ) :
    (∀ e : AggEntry, aggEntryFor evaluations pick = some e →
      e.average_score = (criterionScores evaluations pick).sum /
        ((criterionScores evaluations pick).length : ℚ) ∧
      e.min_score ∈ criterionScores evaluations pick ∧
      (∀ y ∈ criterionScores evaluations pick, e.min_score ≤ y) ∧
      e.max_score ∈ criterionScores evaluations pick ∧
      (∀ y ∈ criterionScores evaluations pick, y ≤ e.max_score) ∧
      (1 < (criterionScores evaluations pick).length →
        e.score_variance = e.max_score - e.min_score) ∧
      ((criterionScores evaluations pick).length = 1 →
        e.score_variance = 0)) ∧
    (¬ (successfulEvals evaluations).isEmpty = true →
      (_aggregate_evaluations evaluations).aggregation_success = true ∧
      (_aggregate_evaluations evaluations).task_completion =
        aggEntryFor evaluations (fun qs => qs.task_completion) ∧
      (_aggregate_evaluations evaluations).content_consistency =
        aggEntryFor evaluations (fun qs => qs.content_consistency) ∧
      (_aggregate_evaluations evaluations).diversity =
        aggEntryFor evaluations (fun qs => qs.diversity) ∧
      (_aggregate_evaluations evaluations).usefulness =
        aggEntryFor evaluations (fun qs => qs.usefulness) ∧
      (_aggregate_evaluations evaluations).overall_average_score =
        (if ([(_aggregate_evaluations evaluations).task_completion,
              (_aggregate_evaluations evaluations).content_consistency,
              (_aggregate_evaluations evaluations).diversity,
              (_aggregate_evaluations evaluations).usefulness].filterMap
                id).isEmpty then 0
         else (([(_aggregate_evaluations evaluations).task_completion,
                 (_aggregate_evaluations evaluations).content_consistency,
                 (_aggregate_evaluations evaluations).diversity,
                 (_aggregate_evaluations evaluations).usefulness].filterMap
                   id).map AggEntry.average_score).sum /
           ((([(_aggregate_evaluations evaluations).task_completion,
               (_aggregate_evaluations evaluations).content_consistency,
               (_aggregate_evaluations evaluations).diversity,
               (_aggregate_evaluations evaluations).usefulness].filterMap
                 id).length : ℚ))) ∧
      (_aggregate_evaluations evaluations).quality_assessment =
        some (_get_quality_assessment
          (_aggregate_evaluations evaluations).overall_average_score)) ∧
    ((_get_quality_assessment q = "Excellent" ↔ 8 ≤ q) ∧
     (_get_quality_assessment q = "Good" ↔ 7 ≤ q ∧ q < 8) ∧
     (_get_quality_assessment q = "Satisfactory" ↔ 6 ≤ q ∧ q < 7) ∧
     (_get_quality_assessment q = "Below Average" ↔ 5 ≤ q ∧ q < 6) ∧
     (_get_quality_assessment q = "Poor" ↔ q < 5)) := by
  refine ⟨?_, ?_, ?_⟩
  · intro e he
    cases hcs : criterionScores evaluations pick with
    | nil => rw [aggEntryFor, hcs] at he; exact absurd he (by simp)
    | cons x xs =>
        rw [aggEntryFor, hcs] at he
        have he' : e = ⟨(x :: xs).sum / ((x :: xs).length : ℚ),
            pyListMin x xs, pyListMax x xs,
            if (x :: xs).length > 1 then pyListMax x xs - pyListMin x xs
            else 0,
            (criterionExpls evaluations pick).take 2⟩ :=
          (Option.some.inj he).symm
        subst he'
        refine ⟨rfl, pyListMin_mem x xs, pyListMin_le x xs,
          pyListMax_mem x xs, pyListMax_ge x xs, ?_, ?_⟩
        · intro hlen
          show (if (x :: xs).length > 1 then pyListMax x xs - pyListMin x xs
            else 0) = pyListMax x xs - pyListMin x xs
          rw [if_pos hlen]
        · intro hlen
          show (if (x :: xs).length > 1 then pyListMax x xs - pyListMin x xs
            else 0) = 0
          rw [if_neg (by omega)]
  · intro hsucc
    simp only [_aggregate_evaluations]
    rw [if_neg hsucc]
    exact ⟨rfl, rfl, rfl, rfl, rfl, rfl, rfl⟩
  · unfold _get_quality_assessment
    split_ifs with h1 h2 h3 h4
    · exact ⟨iff_of_true rfl h1,
        iff_of_false (by decide) (fun h => absurd h1 (not_le.mpr h.2)),
        iff_of_false (by decide) (fun h => by linarith [h.2]),
        iff_of_false (by decide) (fun h => by linarith [h.2]),
        iff_of_false (by decide) (fun h => by linarith)⟩
    · exact ⟨iff_of_false (by decide) h1,
        iff_of_true rfl ⟨h2, not_le.mp h1⟩,
        iff_of_false (by decide) (fun h => by linarith [h.2]),
        iff_of_false (by decide) (fun h => by linarith [h.2]),
        iff_of_false (by decide) (fun h => by linarith)⟩
    · exact ⟨iff_of_false (by decide) h1,
        iff_of_false (by decide) (fun h => absurd h.1 h2),
        iff_of_true rfl ⟨h3, not_le.mp h2⟩,
        iff_of_false (by decide) (fun h => by linarith [h.2]),
        iff_of_false (by decide) (fun h => by linarith)⟩
    · exact ⟨iff_of_false (by decide) h1,
        iff_of_false (by decide) (fun h => absurd h.1 h2),
        iff_of_false (by decide) (fun h => absurd h.1 h3),
        iff_of_true rfl ⟨h4, not_le.mp h3⟩,
        iff_of_false (by decide) (fun h => by linarith)⟩
    · exact ⟨iff_of_false (by decide) h1,
        iff_of_false (by decide) (fun h => absurd h.1 h2),
        iff_of_false (by decide) (fun h => absurd h.1 h3),
        iff_of_false (by decide) (fun h => absurd h.1 h4),
        iff_of_true rfl (not_le.mp h4)⟩

/-- Witness for C9 at the spec's concrete scenario: two successful
evaluations with `task_completion` scores `8.5` and `7.0` aggregate to
`average_score = 7.75`, `min = 7.0`, `max = 8.5`, `score_variance = 1.5`
(`= max - min`, through the theorem), and `_get_quality_assessment`
labels `7.75` as `"Good"`. -/
theorem aggregate_evaluations_witness :
    aggEntryFor
        [⟨true, ⟨some ⟨17/2, "e1"⟩, none, none, none⟩⟩,
         ⟨true, ⟨some ⟨7, "e2"⟩, none, none, none⟩⟩]
        (fun qs => qs.task_completion) =
      some ⟨31/4, 7, 17/2, 3/2, ["e1", "e2"]⟩ ∧
    (31 : ℚ)/4 = ((17 : ℚ)/2 + 7) / 2 ∧
    (3 : ℚ)/2 = 17/2 - 7 ∧
    _get_quality_assessment (31/4) = "Good" ∧
    (7 : ℚ) ≤ 31/4 ∧ (31 : ℚ)/4 < 8 := by
  have hAgg : aggEntryFor
      [⟨true, ⟨some ⟨17/2, "e1"⟩, none, none, none⟩⟩,
       ⟨true, ⟨some ⟨7, "e2"⟩, none, none, none⟩⟩]
      (fun qs => qs.task_completion) =
      some ⟨31/4, 7, 17/2, 3/2, ["e1", "e2"]⟩ := by
    norm_num [aggEntryFor, criterionScores, successfulEvals, criterionExpls,
      pyListMin, pyListMax, min_def, max_def, List.filterMap_cons,
      List.filterMap_nil]
  have h := aggregate_evaluations_spec
    [⟨true, ⟨some ⟨17/2, "e1"⟩, none, none, none⟩⟩,
     ⟨true, ⟨some ⟨7, "e2"⟩, none, none, none⟩⟩]
    (fun qs => qs.task_completion) (31/4)
  have hvar := (h.1 ⟨31/4, 7, 17/2, 3/2, ["e1", "e2"]⟩ hAgg).2.2.2.2.2.1
    (by decide)
  refine ⟨hAgg, by norm_num, by simpa using hvar, ?_, by norm_num,
    by norm_num⟩
  exact h.2.2.2.1.mpr ⟨by norm_num, by norm_num⟩

end EvalPipeline
